import Mathlib

/-!
Verification development for the gphotos-sync synchronization engine
(`src/gphotos/GooglePhotosSync.py` and `src/GoogleMedia.py`).

The Python code is shallowly embedded: timestamps/dates are `Nat`
(with `Utils.minimum_date` as `0`), POSIX paths are `List Char`,
exception instances are the inductive `Exc`, fallible code returns
`Except Exc`, and external collaborators (the REST API, the filesystem,
the row lookup of the metadata store) are oracle parameters of the
embedded functions.
-/

namespace GPhotosSync

/-- Exception values that can arise in the engine, flattened from the
Python exception classes that `GooglePhotosSync.py` distinguishes:
`requests.HTTPError`, `urllib3`/`requests` `RetryError`,
`KeyboardInterrupt`, local `OSError`-style I/O failures, and anything
else. -/
inductive Exc where
  | httpError
  | retryError
  | keyboardInterrupt
  | ioError
  | otherError
deriving DecidableEq

/-- The Python test `isinstance(e, requests.HTTPError)` used in
`do_download_complete` (line 289): true exactly for an HTTPError
instance.  `RetryError` is not a subclass of `HTTPError`, so it (and
every local I/O error) tests false. -/
def isinstance_HTTPError : Exc → Bool
  | Exc.httpError => true
  | _ => false

/-- The Python test `e == KeyboardInterrupt` in `do_download_complete`
(line 293) compares the caught exception *instance* `e` against the
*class object* `KeyboardInterrupt`; default object equality is
identity, so the test is false for every exception instance a future
can hold. -/
def eq_KeyboardInterrupt_class (_ : Exc) : Bool := false

/-- The slice of a media record that the download coordinator reads:
its store identifier (relative path and url, used only for logging and
quarantine context, are folded into the identifier). -/
structure MediaItem where
  id : String
  isVideo : Bool
deriving DecidableEq

/-- A finished or in-flight worker future, paired (as in
`pool_future_to_media`) with its media item; `exc` is the value of
`future.exception()`: `some e` when the task raised `e`, `none` when
it succeeded. -/
structure Future where
  fid : Nat
  media : MediaItem
  exc : Option Exc
deriving DecidableEq

/-- Modelled from the spec: the Quarantine Ledger (`BadIds`, whose
source is not under src/) keeps a set of item identifiers; `add_id` is
idempotent (adding a present identifier does not duplicate it). -/
def addId (bad : List String) (i : String) : List String :=
  if i ∈ bad then bad else i :: bad

/-- Modelled from the spec: `BadIds.check_id_ok id` is true exactly
when `id` is absent from the Quarantine Ledger. -/
def check_id_ok (bad : List String) (i : String) : Bool :=
  decide (i ∉ bad)

/-- Coordinator-side mutable state of `GooglePhotosSync` touched by the
download pipeline: outcome counters, the Quarantine Ledger
(`self.bad_ids`), the identifiers marked downloaded in the store
(`self._db.put_downloaded`), and the in-flight pool
(`self.pool_future_to_media`). -/
structure DState where
  files_downloaded : Nat
  files_download_failed : Nat
  files_download_started : Nat
  bad_ids : List String
  db_downloaded : List String
  pool : List Future
deriving DecidableEq

/-- Body of the `do_download_complete` loop (lines 279-300) for one
collected future: on an exception, increment the failure counter, add
the item to the ledger when the exception is an `HTTPError` instance,
re-raise when `e == KeyboardInterrupt` holds (which, per
`eq_KeyboardInterrupt_class`, it never does); on success, mark the
record downloaded and increment the success counter; finally delete
the future from the pool. -/
def complete_one (s : DState) (f : Future) : Except Exc DState :=
  match f.exc with
  | some e =>
    let s1 : DState := { s with files_download_failed := s.files_download_failed + 1 }
    let s2 : DState :=
      if isinstance_HTTPError e then
        { s1 with bad_ids := addId s1.bad_ids f.media.id }
      else s1
    if eq_KeyboardInterrupt_class e then Except.error e
    else Except.ok { s2 with pool := s2.pool.erase f }
  | none =>
    Except.ok { s with
      files_downloaded := s.files_downloaded + 1
      db_downloaded := f.media.id :: s.db_downloaded
      pool := s.pool.erase f }

/-- `do_download_complete(futures_list)` (lines 278-300): fold
`complete_one` over the collected futures, propagating a re-raised
exception. -/
def do_download_complete (s : DState) : List Future → Except Exc DState
  | [] => Except.ok s
  | f :: rest =>
    match complete_one s f with
    | Except.error e => Except.error e
    | Except.ok s1 => do_download_complete s1 rest

/-- Claim C1: the claim states that when a collected worker result is a
cancellation (`KeyboardInterrupt`), the coordinator re-raises it and
never counts it as an ordinary failure.  The code disagrees: the guard
`e == KeyboardInterrupt` compares an instance with the class and is
always false, so `raise e` is dead code; collecting a future whose
exception is a `KeyboardInterrupt` instance returns normally with the
ordinary-failure counter incremented (and, as the claim expects, no
quarantine entry). -/
theorem C1_cancellation_swallowed_and_counted :
    do_download_complete
      { files_downloaded := 0, files_download_failed := 0,
        files_download_started := 0, bad_ids := [], db_downloaded := [],
        pool := [{ fid := 0, media := { id := "m1", isVideo := false },
                   exc := some Exc.keyboardInterrupt }] }
      [{ fid := 0, media := { id := "m1", isVideo := false },
         exc := some Exc.keyboardInterrupt }]
    = Except.ok
      { files_downloaded := 0, files_download_failed := 1,
        files_download_started := 0, bad_ids := [], db_downloaded := [],
        pool := [] } := by
  rfl

/-- Claim C5: for every finished download task collected by the
coordinator: on failure the failure counter is incremented and the
item is quarantined exactly when the exception is an `HTTPError`
instance (never for a local I/O error); on success the record is
marked downloaded and the success counter is incremented; in both
cases the future leaves the pool, and the loop then continues with the
remaining collected futures. -/
theorem C5_completion_handling (s : DState) (f : Future) :
    (∀ e, f.exc = some e →
      complete_one s f = Except.ok
        { s with
            files_download_failed := s.files_download_failed + 1
            bad_ids := if e = Exc.httpError then addId s.bad_ids f.media.id else s.bad_ids
            pool := s.pool.erase f })
    ∧ (f.exc = none →
      complete_one s f = Except.ok
        { s with
            files_downloaded := s.files_downloaded + 1
            db_downloaded := f.media.id :: s.db_downloaded
            pool := s.pool.erase f })
    ∧ (∀ s1 rest, complete_one s f = Except.ok s1 →
        do_download_complete s (f :: rest) = do_download_complete s1 rest) := by
  refine ⟨?_, ?_, ?_⟩
  · intro e he
    cases e <;>
      simp [complete_one, he, eq_KeyboardInterrupt_class, isinstance_HTTPError]
  · intro he
    simp [complete_one, he]
  · intro s1 rest h1
    simp [do_download_complete, h1]

/-- Witness for C5 at a concrete failed future carrying a local I/O
error: the failure counter advances and the ledger is untouched. -/
theorem C5_completion_handling_witness :
    complete_one
      { files_downloaded := 0, files_download_failed := 3,
        files_download_started := 0, bad_ids := ["q0"], db_downloaded := [],
        pool := [{ fid := 7, media := { id := "m7", isVideo := true },
                   exc := some Exc.ioError }] }
      { fid := 7, media := { id := "m7", isVideo := true },
        exc := some Exc.ioError }
    = Except.ok
      { files_downloaded := 0, files_download_failed := 3 + 1,
        files_download_started := 0,
        bad_ids := if Exc.ioError = Exc.httpError then
            addId ["q0"] "m7" else ["q0"],
        db_downloaded := [],
        pool := ([{ fid := 7, media := { id := "m7", isVideo := true },
                    exc := some Exc.ioError }] :
            List Future).erase
          { fid := 7, media := { id := "m7", isVideo := true },
            exc := some Exc.ioError } } :=
  (C5_completion_handling _ _).1 Exc.ioError rfl

/-- `GooglePhotosSync.MAX_THREADS` (line 28): the worker-pool bound. -/
def MAX_THREADS : Nat := 20

/-- The `while len(self.pool_future_to_media) >= self.MAX_THREADS`
backpressure loop of `download_file` (lines 307-315).  `oracle round f`
models `f.done()` at a given polling round; the loop body collects the
done futures and runs `do_download_complete` on them (which deletes
them from the pool).  The loop is given fuel: `none` means the code is
still spinning (or an exception propagated out of the completion
handler), so no new task is submitted. -/
def drain_loop (oracle : Nat → Future → Bool) : Nat → DState → Option DState
  | 0, s => if MAX_THREADS ≤ s.pool.length then none else some s
  | fuel + 1, s =>
    if MAX_THREADS ≤ s.pool.length then
      match do_download_complete s (s.pool.filter (fun f => oracle fuel f)) with
      | Except.error _ => none
      | Except.ok s2 => drain_loop oracle fuel s2
    else some s

/-- `download_file(media_item, media_json)` (lines 302-323): wait until
at least one pool slot is free, then increment
`files_download_started`, submit the new download to the pool and
record it in `pool_future_to_media`. -/
def download_file (oracle : Nat → Future → Bool) (fuel : Nat)
    (s : DState) (nf : Future) : Option DState :=
  match drain_loop oracle fuel s with
  | none => none
  | some s1 => some { s1 with
      files_download_started := s1.files_download_started + 1
      pool := nf :: s1.pool }

/-- Whenever the backpressure loop exits, the in-flight pool is
strictly below the bound. -/
theorem drain_loop_lt (oracle : Nat → Future → Bool) :
    ∀ (fuel : Nat) (s s1 : DState), drain_loop oracle fuel s = some s1 →
      s1.pool.length < MAX_THREADS := by
  intro fuel
  induction fuel with
  | zero =>
    intro s s1 h
    unfold drain_loop at h
    split at h
    · exact absurd h (by simp)
    · cases h
      omega
  | succ n ih =>
    intro s s1 h
    unfold drain_loop at h
    split at h
    · split at h
      · exact absurd h (by simp)
      · exact ih _ _ h
    · cases h
      omega

/-- Claim C6: the number of in-flight download tasks never exceeds
`MAX_THREADS`: whenever `download_file` submits a new task, the
submission happened only after the backpressure loop reported an
in-flight count strictly below the bound, and the resulting pool is
within the bound. -/
theorem C6_backpressure_bound (oracle : Nat → Future → Bool) (fuel : Nat)
    (s s' : DState) (nf : Future)
    (h : download_file oracle fuel s nf = some s') :
    s'.pool.length ≤ MAX_THREADS ∧
    ∃ s1, drain_loop oracle fuel s = some s1 ∧
      s1.pool.length < MAX_THREADS ∧
      s' = { s1 with
        files_download_started := s1.files_download_started + 1
        pool := nf :: s1.pool } := by
  unfold download_file at h
  cases hd : drain_loop oracle fuel s with
  | none => rw [hd] at h; exact absurd h (by simp)
  | some s1 =>
    rw [hd] at h
    have hlt := drain_loop_lt oracle fuel s s1 hd
    cases h
    refine ⟨?_, s1, rfl, hlt, rfl⟩
    simp
    omega

/-- Witness for C6: starting from an empty pool, a submission goes
through immediately and the resulting pool of one task respects the
bound. -/
theorem C6_backpressure_bound_witness :
    (download_file (fun _ _ => false) 0
      { files_downloaded := 0, files_download_failed := 0,
        files_download_started := 0, bad_ids := [], db_downloaded := [],
        pool := [] }
      { fid := 1, media := { id := "n1", isVideo := false }, exc := none }
      = some
      { files_downloaded := 0, files_download_failed := 0,
        files_download_started := 1, bad_ids := [], db_downloaded := [],
        pool := [{ fid := 1, media := { id := "n1", isVideo := false },
                   exc := none }] }) ∧
    ({ files_downloaded := 0, files_download_failed := 0,
       files_download_started := 1, bad_ids := [], db_downloaded := [],
       pool := [{ fid := 1, media := { id := "n1", isVideo := false },
                  exc := none }] } : DState).pool.length ≤ MAX_THREADS :=
  ⟨rfl,
   (C6_backpressure_bound (fun _ _ => false) 0
      { files_downloaded := 0, files_download_failed := 0,
        files_download_started := 0, bad_ids := [], db_downloaded := [],
        pool := [] }
      { files_downloaded := 0, files_download_failed := 0,
        files_download_started := 1, bad_ids := [], db_downloaded := [],
        pool := [{ fid := 1, media := { id := "n1", isVideo := false },
                   exc := none }] }
      { fid := 1, media := { id := "n1", isVideo := false }, exc := none }
      (by rfl)).1⟩

/-- The four effectful steps of the `try` block of `do_download_file`
(lines 261-270), each of which can raise: the streamed GET, copying
the response body into the temp file, the atomic rename onto the final
path, and setting the file timestamps. -/
inductive XferStep where
  | get
  | copy
  | rename
  | utime
deriving DecidableEq

/-- Filesystem footprint of one `do_download_file` call:
whether the `NamedTemporaryFile` created in the destination folder
still exists, and whether the fully-copied file sits at
`local_full_path` (the rename is atomic, so the final path never holds
a partial file in this model). -/
structure WorkerFs where
  temp_exists : Bool
  final_complete : Bool
deriving DecidableEq

/-- `do_download_file(base_url, media_item)` (lines 248-276).
`raiseAt` says which step of the try block raises, and with which
exception, if any.  After `tempfile.NamedTemporaryFile(dir=local_folder,
delete=False)` the temp file exists; on a clean run the body is copied,
the temp file is renamed onto the final path and `os.utime` is applied.
The `except KeyboardInterrupt` handler only logs and re-raises; the
`except BaseException` handler runs `os.remove(temp_file.name)` before
re-raising (and `os.remove` on an already-renamed temp file itself
raises an `OSError`, replacing the original exception).  Returns the
resulting filesystem footprint and the propagated exception. -/
def do_download_file (raiseAt : Option (XferStep × Exc)) :
    WorkerFs × Option Exc :=
  let afterTry : WorkerFs × Option Exc :=
    match raiseAt with
    | none => ({ temp_exists := false, final_complete := true }, none)
    | some (XferStep.get, e) =>
        ({ temp_exists := true, final_complete := false }, some e)
    | some (XferStep.copy, e) =>
        ({ temp_exists := true, final_complete := false }, some e)
    | some (XferStep.rename, e) =>
        ({ temp_exists := true, final_complete := false }, some e)
    | some (XferStep.utime, e) =>
        ({ temp_exists := false, final_complete := true }, some e)
  match afterTry with
  | (fs, none) => (fs, none)
  | (fs, some e) =>
    match e with
    | Exc.keyboardInterrupt => (fs, some e)
    | _ =>
      if fs.temp_exists then ({ fs with temp_exists := false }, some e)
      else (fs, some Exc.ioError)

/-- Counterexample to claim C2: a `KeyboardInterrupt` raised while the
body is being copied propagates out of `do_download_file` with the
temporary file still sitting in the destination folder — the
`except KeyboardInterrupt` handler (lines 271-273) re-raises without
deleting it, so an orphan temp file remains. -/
theorem C2_cancellation_leaves_temp_file :
    (do_download_file (some (XferStep.copy, Exc.keyboardInterrupt))).2
      = some Exc.keyboardInterrupt ∧
    (do_download_file (some (XferStep.copy, Exc.keyboardInterrupt))).1.temp_exists
      = true := by
  decide

/-- Claim C2 as amended: on any failure other than a user cancellation
(`KeyboardInterrupt`) raised during the transfer, the temporary file is
deleted before an exception propagates; and the final destination path
holds a file only once the full copy and atomic rename have completed,
so a mid-transfer failure never leaves a partial file there.  (On
`KeyboardInterrupt` the exception propagates but the temp file is left
behind.) -/
theorem C2_failure_cleanup_amended (st : XferStep) (e : Exc)
    (h : e ≠ Exc.keyboardInterrupt) :
    (do_download_file (some (st, e))).1.temp_exists = false ∧
    ((do_download_file (some (st, e))).2).isSome = true ∧
    ((do_download_file (some (st, e))).1.final_complete = true →
      st = XferStep.utime) := by
  revert h
  cases st <;> cases e <;> decide

/-- Witness for the amended C2 at a local I/O error during the copy:
the temp file is removed and the error propagates. -/
theorem C2_failure_cleanup_amended_witness :
    (do_download_file (some (XferStep.copy, Exc.ioError))).1.temp_exists = false ∧
    ((do_download_file (some (XferStep.copy, Exc.ioError))).2).isSome = true ∧
    ((do_download_file (some (XferStep.copy, Exc.ioError))).1.final_complete = true →
      XferStep.copy = XferStep.utime) :=
  C2_failure_cleanup_amended XferStep.copy Exc.ioError (by decide)

/-- `Utils.minimum_date()` (used at line 53; `Utils` is not under
src/): the least date; dates/timestamps are embedded as `Nat`. -/
def minimum_date : Nat := 0

/-- A media descriptor as seen by the indexing loop: its creation and
modification timestamps, plus the result of the
`media_item.is_indexed(self._db)` store lookup (`GooglePhotosMedia` is
not under src/, so the lookup is an oracle bundled with the item):
`some m` is an existing row with `ModifyDate = m`, `none` means no
existing row. -/
structure IndexItem where
  create_date : Nat
  modify_date : Nat
  row : Option Nat
deriving DecidableEq

/-- State threaded through an indexing run: `self._latest_download`,
the two counters, and the media rows written to the store
(`save_to_db`), newest first. -/
structure IndexState where
  latest_download : Nat
  files_indexed : Nat
  files_index_skipped : Nat
  written : List IndexItem
deriving DecidableEq

/-- `write_media_index(media, update)` (lines 143-146): save the row
and advance `_latest_download` when the item's creation date exceeds
it. -/
def write_media_index (s : IndexState) (m : IndexItem) : IndexState :=
  { s with
      written := m :: s.written
      latest_download :=
        if s.latest_download < m.create_date then m.create_date
        else s.latest_download }

/-- One iteration of the `for media_item_json in media_json` loop
(lines 211-233): insert when no row exists, update when the remote
modify date is newer, otherwise skip. -/
def index_one (s : IndexState) (m : IndexItem) : IndexState :=
  match m.row with
  | none =>
    write_media_index { s with files_indexed := s.files_indexed + 1 } m
  | some rowModify =>
    if rowModify < m.modify_date then
      write_media_index { s with files_indexed := s.files_indexed + 1 } m
    else
      { s with files_index_skipped := s.files_index_skipped + 1 }

/-- The indexing loop over the concatenated pages of descriptors. -/
def index_items (s : IndexState) : List IndexItem → IndexState
  | [] => s
  | m :: rest => index_items (index_one s m) rest

/-- The effective start boundary of `index_photos_media`
(lines 198-201): `None` under a forced rescan, otherwise
`self.start_date or self._db.get_scan_date()`. -/
def effective_start (rescan : Bool) (startDate dbScanDate : Option Nat) :
    Option Nat :=
  if rescan then none
  else
    match startDate with
    | some d => some d
    | none => dbScanDate

/-- Result of one `index_photos_media` run: the final in-memory state,
the start boundary the catalog was actually queried with, and the
persisted ScanWatermark after the run. -/
structure IndexRun where
  state : IndexState
  queried_start : Option Nat
  scan_date : Option Nat
deriving DecidableEq

/-- `index_photos_media()` (lines 195-246).  `pages start end` is the
catalog oracle: the concatenation of every page `search_media` returns
for the given boundaries.  `_latest_download` starts from
`self._db.get_scan_date() or Utils.minimum_date()` (line 53); after
the loop, `if not self.start_date: self._db.set_scan_date(self._latest_download)`
(lines 245-246) — note the guard looks only at the explicit start
date. -/
def index_photos_media (rescan : Bool) (startDate endDate dbScanDate : Option Nat)
    (pages : Option Nat → Option Nat → List IndexItem) : IndexRun :=
  let s0 : IndexState :=
    { latest_download := dbScanDate.getD minimum_date
      files_indexed := 0
      files_index_skipped := 0
      written := [] }
  let sd := effective_start rescan startDate dbScanDate
  let s1 := index_items s0 (pages sd endDate)
  if startDate.isNone then
    { state := s1, queried_start := sd, scan_date := some s1.latest_download }
  else
    { state := s1, queried_start := sd, scan_date := dbScanDate }

/-- Counterexample to claim C3: a scan bounded only by an explicit
*end* date (start date absent, persisted watermark `some 5`) still
writes the ScanWatermark — the guard at line 245 checks only
`self.start_date` — moving it from `some 5` to `some 9` when an item
created at `9` is indexed, although the claim says a manually bounded
scan leaves the persisted watermark unchanged. -/
theorem C3_end_bounded_scan_moves_watermark :
    (index_photos_media false none (some 7) (some 5)
        (fun _ _ => [{ create_date := 9, modify_date := 9, row := none }])).scan_date
      = some 9 ∧
    (some 9 : Option Nat) ≠ some 5 := by
  constructor
  · rfl
  · decide

/-- Claim C3 as amended: the ScanWatermark is written (to the final
`_latest_download` value) exactly when no *explicit start date* was
given — a forced rescan or an explicit end date does not suppress the
write; only a scan with an explicit start date leaves the persisted
watermark unchanged. -/
theorem C3_watermark_write_condition_amended (rescan : Bool)
    (startDate endDate dbScanDate : Option Nat)
    (pages : Option Nat → Option Nat → List IndexItem) :
    (startDate = none →
      (index_photos_media rescan startDate endDate dbScanDate pages).scan_date
        = some (index_photos_media rescan startDate endDate dbScanDate
            pages).state.latest_download) ∧
    (∀ d, startDate = some d →
      (index_photos_media rescan startDate endDate dbScanDate pages).scan_date
        = dbScanDate) := by
  constructor
  · intro h
    subst h
    simp [index_photos_media]
  · intro d h
    subst h
    simp [index_photos_media]

/-- Witness for the amended C3: with no explicit start date the
watermark is persisted, here advancing from `some 5` to `some 9`. -/
theorem C3_watermark_write_condition_amended_witness :
    (index_photos_media false none (some 7) (some 5)
        (fun _ _ => [{ create_date := 9, modify_date := 9, row := none }])).scan_date
      = some (index_photos_media false none (some 7) (some 5)
        (fun _ _ => [{ create_date := 9, modify_date := 9, row := none }])).state.latest_download :=
  (C3_watermark_write_condition_amended false none (some 7) (some 5)
      (fun _ _ => [{ create_date := 9, modify_date := 9, row := none }])).1 rfl

/-- Counterexample to claim C4: with `forceRescan` set and an explicit
start date `some 5`, the catalog is queried unbounded (`none`) — the
rescan branch at lines 198-199 discards the explicit start date,
although the claim says the explicit start date takes effect even when
`forceRescan` is set. -/
theorem C4_rescan_discards_explicit_start :
    (index_photos_media true (some 5) none (some 3) (fun _ _ => [])).queried_start
      = none ∧
    (none : Option Nat) ≠ some 5 := by
  constructor
  · rfl
  · decide

/-- Claim C4 as amended: the effective start boundary is `none`
(unbounded) whenever `forceRescan` is set, even when an explicit start
date was given; otherwise it is the explicit start date when one is
given, and the persisted watermark when not. -/
theorem C4_start_precedence_amended (rescan : Bool)
    (startDate endDate dbScanDate : Option Nat)
    (pages : Option Nat → Option Nat → List IndexItem) :
    (rescan = true →
      (index_photos_media rescan startDate endDate dbScanDate pages).queried_start
        = none) ∧
    (rescan = false → ∀ d, startDate = some d →
      (index_photos_media rescan startDate endDate dbScanDate pages).queried_start
        = some d) ∧
    (rescan = false → startDate = none →
      (index_photos_media rescan startDate endDate dbScanDate pages).queried_start
        = dbScanDate) := by
  refine ⟨?_, ?_, ?_⟩
  · intro h
    subst h
    cases startDate <;> simp [index_photos_media, effective_start]
  · intro h d hd
    subst h
    subst hd
    simp [index_photos_media, effective_start]
  · intro h hd
    subst h
    subst hd
    simp [index_photos_media, effective_start]

/-- Witness for the amended C4: under a forced rescan with explicit
start date `some 5`, the query boundary is unbounded. -/
theorem C4_start_precedence_amended_witness :
    (index_photos_media true (some 5) none (some 3)
        (fun _ _ => [])).queried_start = none :=
  (C4_start_precedence_amended true (some 5) none (some 3)
      (fun _ _ => [])).1 rfl

/-- Whether the indexing loop writes this descriptor to the store:
true when no row exists yet, or when the remote modify date is newer
than the stored one (the first two branches of lines 215-228). -/
def is_new_or_updated (m : IndexItem) : Bool :=
  match m.row with
  | none => true
  | some rowModify => decide (rowModify < m.modify_date)

theorem if_lt_eq_max (l c : Nat) : (if l < c then c else l) = max l c := by
  rcases Nat.lt_or_ge l c with h | h
  · simp [h, Nat.max_eq_right (Nat.le_of_lt h)]
  · simp [Nat.not_lt.mpr h, Nat.max_eq_left h]

theorem index_one_latest (s : IndexState) (m : IndexItem) :
    (index_one s m).latest_download =
      if is_new_or_updated m then max s.latest_download m.create_date
      else s.latest_download := by
  cases hr : m.row with
  | none => simp [index_one, is_new_or_updated, write_media_index, hr, if_lt_eq_max]
  | some r =>
    by_cases h : r < m.modify_date <;>
      simp [index_one, is_new_or_updated, write_media_index, hr, h, if_lt_eq_max]

theorem index_one_of_written (s : IndexState) (m : IndexItem)
    (h : is_new_or_updated m = true) :
    (index_one s m).latest_download = max s.latest_download m.create_date := by
  rw [index_one_latest, h]
  simp

theorem index_one_of_skipped (s : IndexState) (m : IndexItem)
    (h : is_new_or_updated m = false) :
    (index_one s m).latest_download = s.latest_download := by
  rw [index_one_latest, h]
  simp

/-- After the indexing loop, `_latest_download` is the fold of `max`
over the creation dates of exactly the descriptors that were written,
seeded with its value before the loop. -/
theorem index_items_latest (l : List IndexItem) :
    ∀ s : IndexState, (index_items s l).latest_download =
      (l.filter is_new_or_updated).foldl
        (fun a m => max a m.create_date) s.latest_download := by
  induction l with
  | nil => intro s; simp [index_items]
  | cons m rest ih =>
    intro s
    by_cases hm : is_new_or_updated m
    · rw [show index_items s (m :: rest) = index_items (index_one s m) rest from rfl,
        ih, List.filter_cons_of_pos hm, List.foldl_cons,
        index_one_of_written s m hm]
    · rw [show index_items s (m :: rest) = index_items (index_one s m) rest from rfl,
        ih, List.filter_cons_of_neg (by simpa using hm),
        index_one_of_skipped s m (by simpa using hm)]

theorem le_foldl_max (l : List IndexItem) :
    ∀ a : Nat, a ≤ l.foldl (fun x m => max x m.create_date) a := by
  induction l with
  | nil => intro a; simp
  | cons m rest ih =>
    intro a
    rw [List.foldl_cons]
    exact le_trans (Nat.le_max_left a m.create_date) (ih _)

/-- Counterexample to claim C8: an unbounded incremental scan whose
persisted watermark is `some 5` and which indexes exactly one new item
created at `3` leaves the watermark at `some 5` (`_latest_download`
only ever moves up, and is seeded from the old watermark at line 53),
whereas the claim says the post-scan watermark equals the maximum
creation timestamp among the items indexed, which is `3`. -/
theorem C8_watermark_not_max_of_indexed :
    (index_photos_media false none none (some 5)
        (fun _ _ => [{ create_date := 3, modify_date := 3, row := none }])).scan_date
      = some 5 ∧
    (index_photos_media false none none (some 5)
        (fun _ _ => [{ create_date := 3, modify_date := 3, row := none }])).state.written
      = [{ create_date := 3, modify_date := 3, row := none }] ∧
    (5 : Nat) ≠ 3 := by
  refine ⟨rfl, rfl, by decide⟩

/-- Claim C8 as amended: for every unbounded scan (no explicit start
date), the post-scan watermark equals the `max`-fold of the creation
timestamps of the items actually written during the run, seeded with
the pre-scan value (`get_scan_date() or minimum_date`); in particular
it is greater than or equal to the pre-scan watermark.  It equals the
plain maximum of the indexed creation timestamps only when that
maximum reaches the pre-scan value. -/
theorem C8_watermark_monotone_amended (rescan : Bool)
    (endDate dbScanDate : Option Nat)
    (pages : Option Nat → Option Nat → List IndexItem) :
    (index_photos_media rescan none endDate dbScanDate pages).scan_date
      = some (((pages (effective_start rescan none dbScanDate) endDate).filter
            is_new_or_updated).foldl (fun a m => max a m.create_date)
            (dbScanDate.getD minimum_date)) ∧
    dbScanDate.getD minimum_date
      ≤ ((pages (effective_start rescan none dbScanDate) endDate).filter
            is_new_or_updated).foldl (fun a m => max a m.create_date)
            (dbScanDate.getD minimum_date) := by
  constructor
  · simp only [index_photos_media, Option.isNone_none, if_pos]
    rw [index_items_latest]
  · exact le_foldl_max _ _

/-- State of the batch-resolution layer of the orchestrator: the
Quarantine Ledger, the failure counter, and the identifiers handed to
`download_file` for submission to the worker pool (submission itself
is modelled by recording the identifier). -/
structure OrchState where
  bad_ids : List String
  files_download_failed : Nat
  dispatched : List String
deriving DecidableEq

/-- Whether an API call outcome is a success. -/
def exceptOk : Except Exc Unit → Bool
  | Except.ok _ => true
  | Except.error _ => false

/-- Whether an API call outcome is a success or one of the exceptions
caught by `except (err.HTTPError, err.RetryError)`. -/
def okOrCaught : Except Exc Unit → Bool
  | Except.ok _ => true
  | Except.error Exc.httpError => true
  | Except.error Exc.retryError => true
  | Except.error _ => false

/-- `find_bad_items(batch)` (lines 409-429): one
`mediaItems.get.execute(item_id)` call per item of the failed batch
(`getById` is that oracle); a success is dispatched via
`download_file`, an `HTTPError`/`RetryError` adds the item to the
ledger and counts one failed download, and any other exception is not
caught and propagates. -/
def find_bad_items (getById : String → Except Exc Unit) :
    OrchState → List MediaItem → Except Exc OrchState
  | s, [] => Except.ok s
  | s, m :: rest =>
    match getById m.id with
    | Except.ok _ =>
        find_bad_items getById
          { s with dispatched := s.dispatched ++ [m.id] } rest
    | Except.error e =>
        if e = Exc.httpError ∨ e = Exc.retryError then
          find_bad_items getById
            { s with
                bad_ids := addId s.bad_ids m.id
                files_download_failed := s.files_download_failed + 1 } rest
        else Except.error e

/-- The dispatch loop over `r_json["mediaItemResults"]` (lines
389-398): each entry with a non-null `mediaItem` is dispatched via
`download_file`; a null one is logged and skipped. -/
def dispatch_results (results : List (Option String)) : List String :=
  results.foldl
    (fun acc r => match r with
      | some i => acc ++ [i]
      | none => acc) []

/-- `download_batch(batch)` (lines 381-407).  `batchGet` is the
outcome of `mediaItems.batchGet.execute`: on success the per-item
results are dispatched via `dispatch_results`.  A `KeyboardInterrupt`
cancels the outstanding futures and re-raises; an
`HTTPError`/`RetryError` falls back to `find_bad_items`; anything else
propagates. -/
def download_batch (getById : String → Except Exc Unit)
    (batchGet : Except Exc (List (Option String))) (s : OrchState)
    (batch : List MediaItem) : Except Exc OrchState :=
  match batchGet with
  | Except.ok results =>
      Except.ok { s with dispatched := s.dispatched ++ dispatch_results results }
  | Except.error Exc.keyboardInterrupt => Except.error Exc.keyboardInterrupt
  | Except.error Exc.httpError => find_bad_items getById s batch
  | Except.error Exc.retryError => find_bad_items getById s batch
  | Except.error e => Except.error e

/-- Exact shape of the state produced by the per-item fallback when
every individual get either succeeds or fails with a caught
HTTP/retry error. -/
theorem find_bad_items_spec (getById : String → Except Exc Unit) :
    ∀ (batch : List MediaItem) (s : OrchState),
      (∀ m ∈ batch, okOrCaught (getById m.id) = true) →
      find_bad_items getById s batch = Except.ok
        { bad_ids := batch.foldl
            (fun b m => if exceptOk (getById m.id) then b else addId b m.id)
            s.bad_ids
          files_download_failed := s.files_download_failed +
            (batch.filter (fun m => !exceptOk (getById m.id))).length
          dispatched := s.dispatched ++
            (batch.filter (fun m => exceptOk (getById m.id))).map
              (fun m => m.id) } := by
  intro batch
  induction batch with
  | nil => intro s h; simp [find_bad_items]
  | cons m rest ih =>
    intro s h
    have hm : okOrCaught (getById m.id) = true := h m (by simp)
    have hrest : ∀ x ∈ rest, okOrCaught (getById x.id) = true := by
      intro x hx
      exact h x (List.mem_cons_of_mem m hx)
    cases hg : getById m.id with
    | ok u =>
      cases u
      rw [show find_bad_items getById s (m :: rest)
            = find_bad_items getById
                { s with dispatched := s.dispatched ++ [m.id] } rest by
          simp [find_bad_items, hg]]
      rw [ih _ hrest]
      simp [hg, exceptOk]
    | error e =>
      have he : e = Exc.httpError ∨ e = Exc.retryError := by
        rw [hg] at hm
        cases e <;> simp_all [okOrCaught]
      rw [show find_bad_items getById s (m :: rest)
            = find_bad_items getById
                { s with
                    bad_ids := addId s.bad_ids m.id
                    files_download_failed := s.files_download_failed + 1 } rest by
          simp [find_bad_items, hg, if_pos he]]
      rw [ih _ hrest]
      simp [hg, exceptOk]
      omega

theorem mem_addId_self (b : List String) (i : String) : i ∈ addId b i := by
  unfold addId
  split
  · assumption
  · exact List.mem_cons_self i b

theorem mem_addId_of_mem (b : List String) (i j : String) (h : i ∈ b) :
    i ∈ addId b j := by
  unfold addId
  split
  · exact h
  · exact List.mem_cons_of_mem j h

theorem mem_foldl_addId_of_mem (p : MediaItem → Bool) (l : List MediaItem) :
    ∀ (b : List String) (i : String), i ∈ b →
      i ∈ l.foldl (fun acc x => if p x then acc else addId acc x.id) b := by
  induction l with
  | nil => intro b i h; simpa using h
  | cons m rest ih =>
    intro b i h
    rw [List.foldl_cons]
    by_cases hp : p m
    · rw [if_pos hp]; exact ih b i h
    · rw [if_neg hp]; exact ih _ i (mem_addId_of_mem b i m.id h)

theorem mem_foldl_addId (p : MediaItem → Bool) (l : List MediaItem) :
    ∀ (b : List String), ∀ m ∈ l, p m = false →
      m.id ∈ l.foldl (fun acc x => if p x then acc else addId acc x.id) b := by
  induction l with
  | nil => intro b m hm; cases hm
  | cons m0 rest ih =>
    intro b m hm hpm
    rw [List.foldl_cons]
    rcases List.mem_cons.mp hm with rfl | hmem
    · rw [hpm]
      simp only [Bool.false_eq_true, if_false]
      exact mem_foldl_addId_of_mem p rest _ m.id (mem_addId_self b m.id)
    · exact ih _ m hmem hpm

/-- Claim C7: when the bulk URL-resolution call fails with an
HTTP/retry error, `download_batch` falls back to one get-by-id call
per batch item; assuming each individual get either succeeds or fails
with a caught HTTP/retry error, the run returns normally with exactly
the successfully-resolved items dispatched to the worker pool (in
batch order), one counted failure per failing item, and every failing
item's identifier present in the Quarantine Ledger. -/
theorem C7_batch_fallback (getById : String → Except Exc Unit)
    (s : OrchState) (batch : List MediaItem) (e : Exc)
    (he : e = Exc.httpError ∨ e = Exc.retryError)
    (hg : ∀ m ∈ batch, okOrCaught (getById m.id) = true) :
    ∃ s', download_batch getById (Except.error e) s batch = Except.ok s' ∧
      s'.dispatched = s.dispatched ++
        (batch.filter (fun m => exceptOk (getById m.id))).map (fun m => m.id) ∧
      s'.files_download_failed = s.files_download_failed +
        (batch.filter (fun m => !exceptOk (getById m.id))).length ∧
      (∀ m ∈ batch, exceptOk (getById m.id) = false → m.id ∈ s'.bad_ids) := by
  have hspec := find_bad_items_spec getById batch s hg
  have hmem : ∀ m ∈ batch, exceptOk (getById m.id) = false →
      m.id ∈ batch.foldl
        (fun b x => if exceptOk (getById x.id) then b else addId b x.id)
        s.bad_ids := by
    intro m hm hfail
    exact mem_foldl_addId (fun x => exceptOk (getById x.id)) batch s.bad_ids m hm hfail
  rcases he with rfl | rfl
  · exact ⟨_, by simpa [download_batch] using hspec, rfl, rfl, hmem⟩
  · exact ⟨_, by simpa [download_batch] using hspec, rfl, rfl, hmem⟩

/-- Concrete inputs for the C7 witness: a two-item batch whose first
get succeeds and whose second get returns an HTTP error. -/
def c7get : String → Except Exc Unit :=
  fun i => if i = "a" then Except.ok () else Except.error Exc.httpError

def c7batch : List MediaItem :=
  [{ id := "a", isVideo := false }, { id := "b", isVideo := true }]

def c7s : OrchState :=
  { bad_ids := [], files_download_failed := 0, dispatched := [] }

/-- Witness for C7 at the concrete two-item batch. -/
theorem C7_batch_fallback_witness :
    ∃ s', download_batch c7get (Except.error Exc.httpError) c7s c7batch
        = Except.ok s' ∧
      s'.dispatched = c7s.dispatched ++
        (c7batch.filter (fun m => exceptOk (c7get m.id))).map (fun m => m.id) ∧
      s'.files_download_failed = c7s.files_download_failed +
        (c7batch.filter (fun m => !exceptOk (c7get m.id))).length ∧
      (∀ m ∈ c7batch, exceptOk (c7get m.id) = false → m.id ∈ s'.bad_ids) :=
  C7_batch_fallback c7get c7s c7batch Exc.httpError (Or.inl rfl) (by decide)

/-- State threaded through the candidate loop of
`download_photo_media` (lines 349-366): the skip counter, the
identifiers marked downloaded in the store, the Quarantine Ledger, and
the current batch (a Python dict keyed by identifier, in insertion
order). -/
structure CandState where
  files_download_skipped : Nat
  db_downloaded : List String
  bad_ids : List String
  batch : List (String × MediaItem)
deriving DecidableEq

/-- Python dict assignment `batch[media_item.id] = media_item`:
overwrite in place when the key is present, else append. -/
def dictInsert (l : List (String × MediaItem)) (k : String) (v : MediaItem) :
    List (String × MediaItem) :=
  if l.any (fun p => p.1 == k) then
    l.map (fun p => if p.1 == k then (k, v) else p)
  else l ++ [(k, v)]

/-- One candidate of the `download_photo_media` stream (lines
350-366).  `exists_at` models `os.path.exists(local_full_path)` for
the item.  If the local file exists: count a skip and mark downloaded
in the store; else if `bad_ids.check_id_ok` holds (the identifier is
not quarantined): put the item in the batch (the `os.makedirs` of the
destination folder has no bearing on this state); else do nothing. -/
def process_candidate (exists_at : MediaItem → Bool) (s : CandState)
    (m : MediaItem) : CandState :=
  if exists_at m then
    { s with
        files_download_skipped := s.files_download_skipped + 1
        db_downloaded := m.id :: s.db_downloaded }
  else if check_id_ok s.bad_ids m.id then
    { s with batch := dictInsert s.batch m.id m }
  else s

/-- Claim C9: for every candidate record streamed during a download
run: when its local file already exists it is marked downloaded in the
store and skipped with no other effect; otherwise, when its identifier
is in the Quarantine Ledger, the state is entirely unchanged (so it is
never batched, hence never submitted for download); otherwise it is
added to the current batch. -/
theorem C9_candidate_handling (exists_at : MediaItem → Bool)
    (s : CandState) (m : MediaItem) :
    (exists_at m = true →
      process_candidate exists_at s m =
        { s with
            files_download_skipped := s.files_download_skipped + 1
            db_downloaded := m.id :: s.db_downloaded }) ∧
    (exists_at m = false → m.id ∈ s.bad_ids →
      process_candidate exists_at s m = s) ∧
    (exists_at m = false → m.id ∉ s.bad_ids →
      process_candidate exists_at s m =
        { s with batch := dictInsert s.batch m.id m }) := by
  refine ⟨?_, ?_, ?_⟩
  · intro h
    simp [process_candidate, h]
  · intro h hbad
    simp [process_candidate, h, check_id_ok, hbad]
  · intro h hok
    simp [process_candidate, h, check_id_ok, hok]

/-- Witness for C9 at a quarantined candidate whose local file is
absent: the candidate leaves the state untouched. -/
theorem C9_candidate_handling_witness :
    process_candidate (fun _ => false)
      { files_download_skipped := 0, db_downloaded := [],
        bad_ids := ["q1"], batch := [] }
      { id := "q1", isVideo := false }
    = { files_download_skipped := 0, db_downloaded := [],
        bad_ids := ["q1"], batch := [] } :=
  (C9_candidate_handling (fun _ => false)
      { files_download_skipped := 0, db_downloaded := [],
        bad_ids := ["q1"], batch := [] }
      { id := "q1", isVideo := false }).2.1 rfl (by decide)

/-- POSIX paths, embedded as character lists. -/
abbrev PPath := List Char

/-- `os.path.join(a, b)` for POSIX (CPython's `posixpath.join`): an
absolute second component replaces the first; otherwise the components
are concatenated, inserting a separator unless the first is empty or
already ends with one.  `os.path.join` with more arguments folds this
from the left. -/
def pjoin2 (a b : PPath) : PPath :=
  if b.head? = some '/' then b
  else if a = [] ∨ a.getLast? = some '/' then a ++ b
  else a ++ '/' :: b

theorem pjoin2_absorb (a b : PPath) (h : b.head? = some '/') :
    pjoin2 a b = b := by
  simp [pjoin2, h]

theorem pjoin2_of_empty_or_sep (a b : PPath) (hb : ¬ b.head? = some '/')
    (ha : a = [] ∨ a.getLast? = some '/') : pjoin2 a b = a ++ b := by
  unfold pjoin2
  rw [if_neg hb, if_pos ha]

theorem pjoin2_of_sep_needed (a b : PPath) (hb : ¬ b.head? = some '/')
    (ha : ¬ (a = [] ∨ a.getLast? = some '/')) : pjoin2 a b = a ++ '/' :: b := by
  unfold pjoin2
  rw [if_neg hb, if_neg ha]

/-- `posixpath.join` is associative, so joining a relative path with a
filename first and then prefixing the root yields the same full
path. -/
theorem pjoin2_assoc (a b c : PPath) :
    pjoin2 (pjoin2 a b) c = pjoin2 a (pjoin2 b c) := by
  by_cases hc : c.head? = some '/'
  · rw [pjoin2_absorb (pjoin2 a b) c hc, pjoin2_absorb b c hc,
      pjoin2_absorb a c hc]
  · by_cases hb : b.head? = some '/'
    · have hbne : b ≠ [] := by
        intro h
        rw [h] at hb
        simp at hb
      have hbc : (pjoin2 b c).head? = some '/' := by
        by_cases hb2 : b = [] ∨ b.getLast? = some '/'
        · rw [pjoin2_of_empty_or_sep b c hc hb2,
            List.head?_append_of_ne_nil b hbne]
          exact hb
        · rw [pjoin2_of_sep_needed b c hc hb2,
            List.head?_append_of_ne_nil b hbne]
          exact hb
      rw [pjoin2_absorb a b hb, pjoin2_absorb a (pjoin2 b c) hbc]
    · by_cases hbe : b = []
      · subst hbe
        have hnil : ¬ ([] : PPath).head? = some '/' := by simp
        rw [pjoin2_of_empty_or_sep [] c hc (Or.inl rfl), List.nil_append]
        by_cases ha : a = [] ∨ a.getLast? = some '/'
        · rw [pjoin2_of_empty_or_sep a [] hnil ha, List.append_nil]
        · rw [pjoin2_of_sep_needed a [] hnil ha]
          have hsep : (a ++ '/' :: []).getLast? = some '/' := by
            rw [List.getLast?_append_cons]
            rfl
          rw [pjoin2_of_empty_or_sep (a ++ '/' :: []) c hc (Or.inr hsep),
            pjoin2_of_sep_needed a c hc ha]
          simp
      · obtain ⟨y, ys, rfl⟩ := List.exists_cons_of_ne_nil hbe
        by_cases hbl : (y :: ys).getLast? = some '/'
        · have hbc : pjoin2 (y :: ys) c = (y :: ys) ++ c :=
            pjoin2_of_empty_or_sep (y :: ys) c hc (Or.inr hbl)
          have hbch : ¬ ((y :: ys) ++ c).head? = some '/' := by
            simpa using hb
          by_cases ha : a = [] ∨ a.getLast? = some '/'
          · rw [pjoin2_of_empty_or_sep a (y :: ys) hb ha, hbc,
              pjoin2_of_empty_or_sep a ((y :: ys) ++ c) hbch ha,
              pjoin2_of_empty_or_sep (a ++ y :: ys) c hc
                (Or.inr (by rw [List.getLast?_append_cons]; exact hbl))]
            simp
          · rw [pjoin2_of_sep_needed a (y :: ys) hb ha, hbc,
              pjoin2_of_sep_needed a ((y :: ys) ++ c) hbch ha,
              pjoin2_of_empty_or_sep (a ++ '/' :: y :: ys) c hc
                (Or.inr (by
                  rw [List.getLast?_append_cons, List.getLast?_cons_cons]
                  exact hbl))]
            simp
        · have hbc : pjoin2 (y :: ys) c = (y :: ys) ++ '/' :: c :=
            pjoin2_of_sep_needed (y :: ys) c hc (by simp [hbl])
          have hbch : ¬ ((y :: ys) ++ '/' :: c).head? = some '/' := by
            simpa using hb
          by_cases ha : a = [] ∨ a.getLast? = some '/'
          · rw [pjoin2_of_empty_or_sep a (y :: ys) hb ha, hbc,
              pjoin2_of_empty_or_sep a ((y :: ys) ++ '/' :: c) hbch ha,
              pjoin2_of_sep_needed (a ++ y :: ys) c hc
                (by simp [List.getLast?_append_cons, hbl])]
            simp
          · rw [pjoin2_of_sep_needed a (y :: ys) hb ha, hbc,
              pjoin2_of_sep_needed a ((y :: ys) ++ '/' :: c) hbch ha,
              pjoin2_of_sep_needed (a ++ '/' :: y :: ys) c hc
                (by simp [List.getLast?_append_cons, List.getLast?_cons_cons, hbl])]
            simp

/-- The path-bearing attributes of `GoogleMedia` (`src/GoogleMedia.py`):
the mirror root (`__root_path`), the media-kind subfolder
(`MEDIA_FOLDER`), the item's relative path (`__relative_path`) and its
filename. -/
structure GoogleMedia where
  root_path : PPath
  media_folder : PPath
  relative_path : PPath
  filename : PPath

/-- `GoogleMedia.local_folder` (lines 43-46):
`os.path.join(self.__root_path, self.media_folder, self.__relative_path)`. -/
def GoogleMedia.local_folder (m : GoogleMedia) : PPath :=
  pjoin2 (pjoin2 m.root_path m.media_folder) m.relative_path

/-- `GoogleMedia.local_full_path` (lines 48-50):
`os.path.join(self.local_folder, self.filename)`. -/
def GoogleMedia.local_full_path (m : GoogleMedia) : PPath :=
  pjoin2 m.local_folder m.filename

/-- `GoogleMedia.remote_path` (lines 52-54):
`os.path.join(self.__relative_path, self.filename)`. -/
def GoogleMedia.remote_path (m : GoogleMedia) : PPath :=
  pjoin2 m.relative_path m.filename

/-- Claim C10: the `GoogleMedia` path accessors satisfy the
composition law: `local_full_path` is the join of root path, media
folder, relative path and filename; `remote_path` is the join of
relative path and filename; hence `local_full_path` is the join of
root path, media folder and `remote_path`, and also the join of
`local_folder` and filename. -/
theorem C10_path_composition (m : GoogleMedia) :
    m.local_full_path =
      pjoin2 (pjoin2 (pjoin2 m.root_path m.media_folder) m.relative_path)
        m.filename ∧
    m.remote_path = pjoin2 m.relative_path m.filename ∧
    m.local_full_path =
      pjoin2 (pjoin2 m.root_path m.media_folder) m.remote_path ∧
    m.local_full_path = pjoin2 m.local_folder m.filename := by
  refine ⟨rfl, rfl, ?_, rfl⟩
  exact pjoin2_assoc (pjoin2 m.root_path m.media_folder) m.relative_path
    m.filename

end GPhotosSync
